/-
Verification of the local-llm inference session layer.

This development gives a shallow embedding of the repository's core logic:

* the message data model and `normalizeMessages` (src/src/index.ts),
* backend selection in `createLLM` (src/src/index.ts),
* the two engine adapters `WebLLMProvider` (src/src/backends/webllm.ts) and
  `TransformersProvider` (src/src/backends/transformers.ts): readiness,
  request construction with option defaulting, the not-loaded guard, and
  `unload`,
* the `useChat` chat orchestrator (src/src/react/index.tsx): history,
  the pending (eager-submission) queue, streaming accumulation, the
  reentrancy guard and `stop`.

Asynchronous execution is modelled by a step function over an explicit
orchestrator state: `send`, `stop`, `clear` and `append` are the caller
facing operations; `tokenEvent`, `completeEvent` and `errorEvent` are the
suspension points of an in-flight `llm.stream` call (a token delivery, the
stream resolving, the stream rejecting); `pendingReadyEffect` is the React
effect that fires a queued submission once the provider is ready.
-/
import Mathlib

/-- Message role, from `MessageRole` in src (values "system" | "user" | "assistant"). -/
inductive Role
| system
| user
| assistant
deriving DecidableEq, Repr

/-- Chat message: role plus string content (src `ChatMessage`; the typed-parts
content variant is not needed by the orchestrator layer modelled here). -/
structure ChatMessage where
  role : Role
  content : String
deriving DecidableEq, Repr

/-- Generation options (src `GenerateOptions`): all fields optional.
JavaScript numbers are modelled as rationals. -/
structure GenerateOptions where
  temperature : Option ℚ
  maxTokens : Option Nat
  topP : Option ℚ
  stopSequences : Option (List String)
deriving DecidableEq, Repr

/-- Caller input to `chat` and `stream`: a single string or a message array. -/
inductive MessagesInput
| str (s : String)
| list (ms : List ChatMessage)
deriving DecidableEq, Repr

/-- The optional system prompt prepended to a message list. JavaScript
truthiness makes `undefined` and the empty string both skip the prepend
(`if (systemPrompt)` in src/src/index.ts and src/src/react/index.tsx). -/
def systemPromptMessages (systemPrompt : Option String) : List ChatMessage :=
  match systemPrompt with
  | some sp => if sp = "" then [] else [{ role := Role.system, content := sp }]
  | none => []

/-- Embeds `normalizeMessages` (src/src/index.ts lines 137-154): prepend the
system prompt when truthy, wrap a string input as one user message, splice an
array input through unchanged. -/
def normalizeMessages (input : MessagesInput) (systemPrompt : Option String) :
    List ChatMessage :=
  let base := systemPromptMessages systemPrompt
  match input with
  | MessagesInput.str s => base ++ [{ role := Role.user, content := s }]
  | MessagesInput.list ms => base ++ ms

/-- Backend requested by the caller (`LLMConfig.backend`, default `auto`). -/
inductive RequestedBackend
| auto
| webllm
| transformers
deriving DecidableEq, Repr

/-- Backend actually used by the facade (`useBackend` in `createLLM`). -/
inductive UsedBackend
| webllm
| transformers
deriving DecidableEq, Repr

/-- Embeds the backend selection of `createLLM` (src/src/index.ts lines
189-202). The boolean in the result records whether the downgrade warning
`console.warn('[LocalLLM] WebLLM requested but WebGPU not available...')`
was emitted. The facade's `backend` getter returns exactly the first
component. The selection never throws: this function is total. -/
def selectBackend (requested : RequestedBackend) (webgpu : Bool) :
    UsedBackend × Bool :=
  match requested with
  | RequestedBackend.auto =>
      (if webgpu then UsedBackend.webllm else UsedBackend.transformers, false)
  | RequestedBackend.webllm =>
      if webgpu then (UsedBackend.webllm, false) else (UsedBackend.transformers, true)
  | RequestedBackend.transformers => (UsedBackend.transformers, false)

/-- Engine request shape built by `WebLLMProvider.chat` / `stream`
(src/src/backends/webllm.ts lines 119-128 and 142-152): the fields of
`engine.chat.completions.create` that depend on the adapter's inputs. -/
structure EngineChatRequest where
  messages : List ChatMessage
  temperature : ℚ
  maxTokens : Nat
  topP : ℚ
  stop : Option (List String)
deriving DecidableEq, Repr

/-- Request construction shared by `WebLLMProvider.chat` and `stream`:
`options?.temperature ?? 0.7`, `options?.maxTokens ?? 512`,
`options?.topP ?? 0.95`, `stop: options?.stopSequences`. -/
def buildWebLLMRequest (messages : List ChatMessage)
    (options : Option GenerateOptions) : EngineChatRequest :=
  { messages := messages
    temperature := (options.bind GenerateOptions.temperature).getD (7/10)
    maxTokens := (options.bind GenerateOptions.maxTokens).getD 512
    topP := (options.bind GenerateOptions.topP).getD (95/100)
    stop := options.bind GenerateOptions.stopSequences }

/-- Provider state of `WebLLMProvider`: the opaque engine handle and the
current model id (src/src/backends/webllm.ts lines 79-80). -/
structure WebLLMProviderState where
  engine : Option Unit
  currentModel : Option String
deriving DecidableEq, Repr

/-- Getter `isReady`: engine and model both non-null. -/
def WebLLMProviderState.isReady (s : WebLLMProviderState) : Bool :=
  s.engine.isSome && s.currentModel.isSome

/-- Getter `modelId`. -/
def WebLLMProviderState.modelId (s : WebLLMProviderState) : Option String :=
  s.currentModel

/-- Embeds `WebLLMProvider.chat` (src/src/backends/webllm.ts lines 114-131):
throws when no engine is loaded, otherwise hands the engine the request
built from messages and options. -/
def webllmChat (s : WebLLMProviderState) (messages : List ChatMessage)
    (options : Option GenerateOptions) : Except String EngineChatRequest :=
  match s.engine with
  | none => Except.error "Model not loaded. Call load() first."
  | some _ => Except.ok (buildWebLLMRequest messages options)

/-- Embeds `WebLLMProvider.unload` (src/src/backends/webllm.ts lines
167-173): tears down the engine and clears both fields when an engine is
present, otherwise does nothing. -/
def webllmUnload (s : WebLLMProviderState) : WebLLMProviderState :=
  match s.engine with
  | some _ => { engine := none, currentModel := none }
  | none => s

/-- Chat template family selected by `detectChatFormat`
(src/src/backends/transformers.ts lines 76-89). -/
inductive ChatFormat
| chatml
| llama
| phi
| generic
deriving DecidableEq, Repr

/-- Whether one character list starts with another (helper for the
JavaScript `String.prototype.includes` substring test). -/
def listStartsWith : List Char → List Char → Bool
  | _, [] => true
  | [], _ :: _ => false
  | a :: as, b :: bs => a == b && listStartsWith as bs

/-- Whether `needle` occurs as a contiguous sublist (helper for
`String.prototype.includes`). -/
def listHasSub (needle : List Char) : List Char → Bool
  | [] => needle.isEmpty
  | a :: t => listStartsWith (a :: t) needle || listHasSub needle t

/-- JavaScript `hay.includes(needle)` on strings. -/
def strIncludes (hay needle : String) : Bool :=
  listHasSub needle.data hay.data

/-- Role rendered as its wire string. -/
def Role.toWire : Role → String
  | Role.system => "system"
  | Role.user => "user"
  | Role.assistant => "assistant"

/-- Embeds `detectChatFormat` (src/src/backends/transformers.ts lines
76-89): substring match on the lowercased model id. -/
def detectChatFormat (modelId : String) : ChatFormat :=
  let lower := modelId.toLower
  if strIncludes lower "qwen" || strIncludes lower "smollm" then ChatFormat.chatml
  else if strIncludes lower "llama" || strIncludes lower "tinyllama" then ChatFormat.llama
  else if strIncludes lower "phi" then ChatFormat.phi
  else ChatFormat.generic

/-- Embeds `formatPrompt` (src/src/backends/transformers.ts lines 94-154):
flattens the message list into one prompt string in the template family
selected from the model id. The `llama` user case keeps the source's
branch on `prompt.includes('[INST]')` (both arms append the same text). -/
def formatPrompt (messages : List ChatMessage) (modelId : String) : String :=
  match detectChatFormat modelId with
  | ChatFormat.chatml =>
      (messages.foldl
        (fun prompt msg =>
          prompt ++ "<|im_start|>" ++ msg.role.toWire ++ "\n" ++ msg.content ++ "<|im_end|>\n")
        "") ++ "<|im_start|>assistant\n"
  | ChatFormat.llama =>
      messages.foldl
        (fun prompt msg =>
          match msg.role with
          | Role.system => prompt ++ "<s>[INST] <<SYS>>\n" ++ msg.content ++ "\n<</SYS>>\n\n"
          | Role.user =>
              if !(strIncludes prompt "[INST]") then
                prompt ++ "<s>[INST] " ++ msg.content ++ " [/INST]"
              else
                prompt ++ "<s>[INST] " ++ msg.content ++ " [/INST]"
          | Role.assistant => prompt ++ " " ++ msg.content ++ " </s>")
        ""
  | ChatFormat.phi =>
      (messages.foldl
        (fun prompt msg =>
          match msg.role with
          | Role.system => prompt ++ "<|system|>\n" ++ msg.content ++ "<|end|>\n"
          | Role.user => prompt ++ "<|user|>\n" ++ msg.content ++ "<|end|>\n"
          | Role.assistant => prompt ++ "<|assistant|>\n" ++ msg.content ++ "<|end|>\n")
        "") ++ "<|assistant|>\n"
  | ChatFormat.generic =>
      (messages.foldl
        (fun prompt msg => prompt ++ msg.role.toWire ++ ": " ++ msg.content ++ "\n")
        "") ++ "assistant: "

/-- Pipeline request shape built by `TransformersProvider.chat` / `stream`
(src/src/backends/transformers.ts lines 256-264 and 280-302). -/
structure PipelineRequest where
  prompt : String
  maxNewTokens : Nat
  temperature : ℚ
  topP : ℚ
  doSample : Bool
  returnFullText : Bool
deriving DecidableEq, Repr

/-- Provider state of `TransformersProvider`: pipeline handle and current
model id (src/src/backends/transformers.ts lines 183-184). -/
structure TransformersProviderState where
  pipeline : Option Unit
  currentModel : Option String
deriving DecidableEq, Repr

/-- Getter `isReady`: pipeline and model both non-null. -/
def TransformersProviderState.isReady (s : TransformersProviderState) : Bool :=
  s.pipeline.isSome && s.currentModel.isSome

/-- Getter `modelId`. -/
def TransformersProviderState.modelId (s : TransformersProviderState) : Option String :=
  s.currentModel

/-- Embeds `TransformersProvider.chat` (src/src/backends/transformers.ts
lines 251-269): throws unless both pipeline and model are set, otherwise
formats the prompt and hands the pipeline the request. -/
def transformersChat (s : TransformersProviderState) (messages : List ChatMessage)
    (options : Option GenerateOptions) : Except String PipelineRequest :=
  match s.pipeline, s.currentModel with
  | some _, some m =>
      Except.ok
        { prompt := formatPrompt messages m
          maxNewTokens := (options.bind GenerateOptions.maxTokens).getD 512
          temperature := (options.bind GenerateOptions.temperature).getD (7/10)
          topP := (options.bind GenerateOptions.topP).getD (95/100)
          doSample := true
          returnFullText := false }
  | _, _ => Except.error "Model not loaded. Call load() first."

/-- Embeds `TransformersProvider.unload` (src/src/backends/transformers.ts
lines 307-310): unconditionally nulls both fields. -/
def transformersUnload (_s : TransformersProviderState) : TransformersProviderState :=
  { pipeline := none, currentModel := none }

/-- Drop leading whitespace characters from a character list. -/
def dropLeadingWs : List Char → List Char
  | [] => []
  | c :: cs => if c.isWhitespace then dropLeadingWs cs else c :: cs

/-- JavaScript `s.trim()`: strip leading and trailing whitespace. -/
def jsTrim (s : String) : String :=
  String.mk ((dropLeadingWs (dropLeadingWs s.data.reverse).reverse))

/-- Options of the `useChat` hook (src/src/react/index.tsx lines 254-282)
that affect the modelled state: initial messages, system prompt, generation
options, and the `queueWhileLoading` flag (default true). -/
structure UseChatOptions where
  initialMessages : List ChatMessage
  systemPrompt : Option String
  generateOptions : Option GenerateOptions
  queueWhileLoading : Bool
deriving DecidableEq, Repr

/-- The slice of the `LLMProvider` context read by `useChat`
(src/src/react/index.tsx line 371): whether `llm` is non-null, `isReady`,
and `isLoading`. -/
structure LLMContext where
  hasLLM : Bool
  isReady : Bool
  isLoading : Bool
deriving DecidableEq, Repr

/-- An in-flight `llm.stream` call started by `generateResponse`: the
message list handed to the adapter, the options passed through, and the
adapter-side accumulated full text. -/
structure Generation where
  apiMessages : List ChatMessage
  options : Option GenerateOptions
  accText : String
deriving DecidableEq, Repr

/-- The state owned by one `useChat` instance (src/src/react/index.tsx
lines 384-393): `messages`, `input`, `isGenerating`, `streamingText`,
`pendingMessage`, and the refs `abortRef` and `isProcessingRef`; `inFlight`
records the suspended `llm.stream` call, if any. `isPending` of the hook's
return value is `pendingMessage != null`. -/
structure ChatState where
  messages : List ChatMessage
  input : String
  isGenerating : Bool
  streamingText : String
  pendingMessage : Option String
  abortFlag : Bool
  isProcessing : Bool
  inFlight : Option Generation
deriving DecidableEq, Repr

/-- The state `useChat` starts from. -/
def initialChatState (opts : UseChatOptions) : ChatState :=
  { messages := opts.initialMessages
    input := ""
    isGenerating := false
    streamingText := ""
    pendingMessage := none
    abortFlag := false
    isProcessing := false
    inFlight := none }

/-- Embeds the synchronous part of `generateResponse`
(src/src/react/index.tsx lines 396-422), up to the suspension on
`llm.stream`: guard (`!llm || !isReady || isProcessingRef.current` returns
`''`), set the processing flag, append the user message, build the API
message list (system prompt if truthy, then `currentMessages`, then the
user message), set generating, clear `streamingText`, clear the abort flag,
and start the stream. The boolean result says whether a generation was
started (false means the call resolved immediately with `''`). -/
def generateResponse (opts : UseChatOptions) (ctx : LLMContext)
    (userContent : String) (currentMessages : List ChatMessage)
    (s : ChatState) : Bool × ChatState :=
  if !(ctx.hasLLM && ctx.isReady) || s.isProcessing then
    (false, s)
  else
    let userMessage : ChatMessage := { role := Role.user, content := userContent }
    let apiMessages :=
      systemPromptMessages opts.systemPrompt ++ currentMessages ++ [userMessage]
    (true,
      { s with
          isProcessing := true
          messages := s.messages ++ [userMessage]
          isGenerating := true
          streamingText := ""
          abortFlag := false
          inFlight := some
            { apiMessages := apiMessages
              options := opts.generateOptions
              accText := "" } })

/-- Embeds `send` (src/src/react/index.tsx lines 467-498). The first
component is `some r` when the call resolves immediately with `r`, and
`none` when a generation was started (the promise resolves later). The
trim guard runs before the controlled input is cleared; a ready provider
generates immediately; a loading provider with queueing enabled appends the
user message and queues it as the pending submission; otherwise no-op. -/
def sendStep (opts : UseChatOptions) (ctx : LLMContext)
    (content : Option String) (s : ChatState) : Option String × ChatState :=
  let messageContent := content.getD s.input
  if jsTrim messageContent = "" then
    (some "", s)
  else
    let s1 := if content.isNone then { s with input := "" } else s
    if ctx.hasLLM && ctx.isReady then
      let r := generateResponse opts ctx messageContent s1.messages s1
      (if r.1 then none else some "", r.2)
    else if ctx.isLoading && opts.queueWhileLoading then
      (some "",
        { s1 with
            messages := s1.messages ++ [{ role := Role.user, content := messageContent }]
            pendingMessage := some messageContent })
    else
      (some "", s1)

/-- Embeds the effect that fires a pending submission when the provider
becomes ready (src/src/react/index.tsx lines 459-465): when `isReady`, the
pending message is truthy and no generation is processing, clear the
pending slot and call `generateResponse` on it with the current history. -/
def pendingReadyEffect (opts : UseChatOptions) (ctx : LLMContext)
    (s : ChatState) : ChatState :=
  match s.pendingMessage with
  | some m =>
      if ctx.isReady && m ≠ "" && !s.isProcessing then
        (generateResponse opts ctx m s.messages { s with pendingMessage := none }).2
      else s
  | none => s

/-- Embeds `stop` (src/src/react/index.tsx lines 500-513): set the abort
flag, stop generating, drop any pending submission; when streamed text is
truthy, commit it as one assistant message with a trailing ellipsis and
clear `streamingText`. The in-flight stream is not cancelled. -/
def stopStep (s : ChatState) : ChatState :=
  let s1 := { s with abortFlag := true, isGenerating := false, pendingMessage := none }
  if s.streamingText = "" then s1
  else
    { s1 with
        messages := s1.messages ++
          [{ role := Role.assistant, content := s.streamingText ++ "..." }]
        streamingText := "" }

/-- Embeds `clear` (src/src/react/index.tsx lines 515-520). -/
def clearStep (opts : UseChatOptions) (s : ChatState) : ChatState :=
  { s with
      messages := opts.initialMessages
      streamingText := ""
      input := ""
      pendingMessage := none }

/-- Embeds `append` (src/src/react/index.tsx lines 522-524). -/
def appendStep (m : ChatMessage) (s : ChatState) : ChatState :=
  { s with messages := s.messages ++ [m] }

/-- One token delivered by the in-flight stream (src/src/react/index.tsx
lines 426-430 plus the adapter-side `fullText += token`): the adapter
accumulator always grows; the orchestrator callback returns early when the
abort flag is set, otherwise publishes the full text as `streamingText`. -/
def tokenEvent (t : String) (s : ChatState) : ChatState :=
  match s.inFlight with
  | none => s
  | some g =>
      let fullText := g.accText ++ t
      let s1 := { s with inFlight := some { g with accText := fullText } }
      if s.abortFlag then s1 else { s1 with streamingText := fullText }

/-- The in-flight `llm.stream` call resolving with its accumulated full
text (src/src/react/index.tsx lines 434-453): unless aborted, append the
assistant message and clear `streamingText`; in all cases the `finally`
block clears `isGenerating` and the processing flag. -/
def completeEvent (s : ChatState) : ChatState :=
  match s.inFlight with
  | none => s
  | some g =>
      let s1 :=
        if s.abortFlag then s
        else
          { s with
              messages := s.messages ++ [{ role := Role.assistant, content := g.accText }]
              streamingText := "" }
      { s1 with isGenerating := false, isProcessing := false, inFlight := none }

/-- The in-flight `llm.stream` call rejecting (src/src/react/index.tsx
lines 446-453): the catch block surfaces the error and returns `''`; the
`finally` block clears `isGenerating` and the processing flag. History is
not touched. -/
def errorEvent (s : ChatState) : ChatState :=
  match s.inFlight with
  | none => s
  | some _ => { s with isGenerating := false, isProcessing := false, inFlight := none }

/-- The events that can hit one `useChat` instance. -/
inductive ChatEvent
| sendEv (content : Option String)
| stopEv
| clearEv
| appendEv (m : ChatMessage)
| tokenEv (t : String)
| completeEv
| errorEv
| effectEv
deriving Repr

/-- One step of the orchestrator under a provider context. -/
def chatStep (opts : UseChatOptions) (ctx : LLMContext) (e : ChatEvent)
    (s : ChatState) : ChatState :=
  match e with
  | ChatEvent.sendEv content => (sendStep opts ctx content s).2
  | ChatEvent.stopEv => stopStep s
  | ChatEvent.clearEv => clearStep opts s
  | ChatEvent.appendEv m => appendStep m s
  | ChatEvent.tokenEv t => tokenEvent t s
  | ChatEvent.completeEv => completeEvent s
  | ChatEvent.errorEv => errorEvent s
  | ChatEvent.effectEv => pendingReadyEffect opts ctx s

/-- States reachable by one `useChat` instance from its initial state,
under arbitrary provider context evolution. -/
inductive ChatReachable (opts : UseChatOptions) : ChatState → Prop
| init : ChatReachable opts (initialChatState opts)
| step (ctx : LLMContext) (e : ChatEvent) {s : ChatState} :
    ChatReachable opts s → ChatReachable opts (chatStep opts ctx e s)

/-- The reentrancy invariant tying the rendered `isGenerating` flag to the
`isProcessingRef` guard. -/
def ChatInv (s : ChatState) : Prop := s.isGenerating = true → s.isProcessing = true

/-- Options used by the concrete witness scenarios below. -/
def wOpts : UseChatOptions :=
  { initialMessages := []
    systemPrompt := none
    generateOptions := none
    queueWhileLoading := true }

/-- A provider context with a ready model. -/
def readyCtx : LLMContext := { hasLLM := true, isReady := true, isLoading := false }

/-- A provider context with the model still loading. -/
def loadingCtx : LLMContext := { hasLLM := false, isReady := false, isLoading := true }

/-- A state with a generation in flight: the initial state after
`send("hi")` under a ready provider. -/
def wGenState : ChatState :=
  chatStep wOpts readyCtx (ChatEvent.sendEv (some "hi")) (initialChatState wOpts)

/-- The generating state after one token "Hel" has been streamed. -/
def wStreamState : ChatState := tokenEvent "Hel" wGenState

/-- A state with a queued pending submission: the initial state after
`send("hi")` under a loading provider. -/
def wPendingState : ChatState :=
  chatStep wOpts loadingCtx (ChatEvent.sendEv (some "hi")) (initialChatState wOpts)

theorem chatInv_initial (opts : UseChatOptions) : ChatInv (initialChatState opts) := by
  intro h
  simp [initialChatState] at h

theorem chatInv_generateResponse (opts : UseChatOptions) (ctx : LLMContext)
    (u : String) (ms : List ChatMessage) {s : ChatState} (h : ChatInv s) :
    ChatInv (generateResponse opts ctx u ms s).2 := by
  unfold generateResponse
  split
  · exact h
  · intro _
    rfl

theorem chatInv_sendStep (opts : UseChatOptions) (ctx : LLMContext)
    (content : Option String) {s : ChatState} (h : ChatInv s) :
    ChatInv (sendStep opts ctx content s).2 := by
  unfold sendStep
  dsimp only
  split_ifs <;>
    first
      | exact h
      | exact chatInv_generateResponse opts ctx _ _ h

theorem chatInv_stopStep {s : ChatState} : ChatInv (stopStep s) := by
  unfold stopStep
  split
  · intro hg
    simp at hg
  · intro hg
    simp at hg

theorem chatInv_step (opts : UseChatOptions) (ctx : LLMContext) (e : ChatEvent)
    {s : ChatState} (h : ChatInv s) : ChatInv (chatStep opts ctx e s) := by
  cases e with
  | sendEv content => exact chatInv_sendStep opts ctx content h
  | stopEv => exact chatInv_stopStep
  | clearEv => exact fun hg => h hg
  | appendEv m => exact fun hg => h hg
  | tokenEv t =>
      simp only [chatStep, tokenEvent]
      split
      · exact h
      · split
        · exact fun hg => h hg
        · exact fun hg => h hg
  | completeEv =>
      simp only [chatStep, completeEvent]
      split
      · exact h
      · intro hg
        simp at hg
  | errorEv =>
      simp only [chatStep, errorEvent]
      split
      · exact h
      · intro hg
        simp at hg
  | effectEv =>
      simp only [chatStep, pendingReadyEffect]
      split
      · split
        · exact chatInv_generateResponse opts ctx _ _ h
        · exact h
      · exact h

theorem chatReachable_inv (opts : UseChatOptions) {s : ChatState}
    (h : ChatReachable opts s) : ChatInv s := by
  induction h with
  | init => exact chatInv_initial opts
  | step ctx e _ ih => exact chatInv_step opts ctx e ih

theorem generating_implies_processing (opts : UseChatOptions) {s : ChatState}
    (h : ChatReachable opts s) (hg : s.isGenerating = true) :
    s.isProcessing = true :=
  chatReachable_inv opts h hg

/-- C1: at most one active generation per orchestrator. Under a ready
provider (the only context in which a generation can be in flight), a
`send` call made while `isGenerating` is true resolves immediately with
the empty string, starts no second generation, and leaves the orchestrator
state unchanged apart from the rejected attempt: history, pending queue,
streaming text, abort flag, processing flag and the in-flight generation
are all untouched (only the controlled input may be cleared). The
no-second-generation and untouched-streaming-state parts hold for every
provider context; history and the pending queue are additionally unchanged
whenever the provider is ready. -/
theorem send_while_generating_starts_no_second_generation
    (opts : UseChatOptions) (ctx : LLMContext) (content : Option String)
    (s : ChatState) (hreach : ChatReachable opts s)
    (hgen : s.isGenerating = true) :
    (sendStep opts ctx content s).1 = some "" ∧
    (sendStep opts ctx content s).2.inFlight = s.inFlight ∧
    (sendStep opts ctx content s).2.isGenerating = s.isGenerating ∧
    (sendStep opts ctx content s).2.streamingText = s.streamingText ∧
    (sendStep opts ctx content s).2.abortFlag = s.abortFlag ∧
    (sendStep opts ctx content s).2.isProcessing = s.isProcessing ∧
    (ctx.hasLLM = true → ctx.isReady = true →
      (sendStep opts ctx content s).2.messages = s.messages ∧
      (sendStep opts ctx content s).2.pendingMessage = s.pendingMessage) := by
  have hproc : s.isProcessing = true := generating_implies_processing opts hreach hgen
  have hgr : ∀ u ms (s' : ChatState), s'.isProcessing = true →
      generateResponse opts ctx u ms s' = (false, s') := by
    intro u ms s' hp
    unfold generateResponse
    simp [hp]
  unfold sendStep
  dsimp only
  split_ifs with h1 h2 h3 h4 h5 h6 h7 h8
  all_goals simp_all [hgr]

/-- Witness for C1 at a concrete reachable generating state. -/
theorem send_while_generating_starts_no_second_generation_witness :
    wGenState.isGenerating = true ∧
    ((sendStep wOpts readyCtx (some "again") wGenState).1 = some "" ∧
     (sendStep wOpts readyCtx (some "again") wGenState).2.inFlight = wGenState.inFlight ∧
     (sendStep wOpts readyCtx (some "again") wGenState).2.isGenerating = wGenState.isGenerating ∧
     (sendStep wOpts readyCtx (some "again") wGenState).2.streamingText = wGenState.streamingText ∧
     (sendStep wOpts readyCtx (some "again") wGenState).2.abortFlag = wGenState.abortFlag ∧
     (sendStep wOpts readyCtx (some "again") wGenState).2.isProcessing = wGenState.isProcessing ∧
     (readyCtx.hasLLM = true → readyCtx.isReady = true →
       (sendStep wOpts readyCtx (some "again") wGenState).2.messages = wGenState.messages ∧
       (sendStep wOpts readyCtx (some "again") wGenState).2.pendingMessage =
         wGenState.pendingMessage)) :=
  ⟨by decide,
   send_while_generating_starts_no_second_generation wOpts readyCtx (some "again") wGenState
     (ChatReachable.step readyCtx (ChatEvent.sendEv (some "hi")) ChatReachable.init)
     (by decide)⟩

/-- C2: eager submission. A `send(c)` with non-blank `c` made while the
provider is not ready but loading (queueing enabled) resolves immediately
with the empty string, appends the user message to history at once and
sets the pending slot (so `isPending` is true). When the provider later
becomes ready, the pending-ready effect clears the pending slot
(`isPending` back to false) and starts a generation for the queued text
automatically; running the effect again afterwards changes nothing, so the
queued submission fires exactly once. -/
theorem queued_send_runs_exactly_once_on_ready
    (opts : UseChatOptions) (ctx1 ctx2 : LLMContext) (c : String) (s : ChatState)
    (hq : opts.queueWhileLoading = true)
    (h1r : ctx1.isReady = false) (h1l : ctx1.isLoading = true)
    (hc : jsTrim c ≠ "")
    (hproc : s.isProcessing = false)
    (h2llm : ctx2.hasLLM = true) (h2r : ctx2.isReady = true) :
    (sendStep opts ctx1 (some c) s).1 = some "" ∧
    (sendStep opts ctx1 (some c) s).2.messages =
      s.messages ++ [{ role := Role.user, content := c }] ∧
    (sendStep opts ctx1 (some c) s).2.pendingMessage = some c ∧
    (pendingReadyEffect opts ctx2 (sendStep opts ctx1 (some c) s).2).pendingMessage = none ∧
    (pendingReadyEffect opts ctx2 (sendStep opts ctx1 (some c) s).2).isGenerating = true ∧
    (pendingReadyEffect opts ctx2 (sendStep opts ctx1 (some c) s).2).inFlight =
      some
        { apiMessages :=
            systemPromptMessages opts.systemPrompt ++
              (s.messages ++ [{ role := Role.user, content := c }]) ++
              [{ role := Role.user, content := c }]
          options := opts.generateOptions
          accText := "" } ∧
    pendingReadyEffect opts ctx2
        (pendingReadyEffect opts ctx2 (sendStep opts ctx1 (some c) s).2) =
      pendingReadyEffect opts ctx2 (sendStep opts ctx1 (some c) s).2 := by
  have hcne : c ≠ "" := by
    intro h
    exact hc (by simp [h, jsTrim, dropLeadingWs])
  have hsend : sendStep opts ctx1 (some c) s =
      (some "",
        { s with
            messages := s.messages ++ [{ role := Role.user, content := c }]
            pendingMessage := some c }) := by
    unfold sendStep
    simp [hc, h1r, h1l, hq]
  rw [hsend]
  have heff : pendingReadyEffect opts ctx2
      ({ s with
          messages := s.messages ++ [{ role := Role.user, content := c }]
          pendingMessage := some c } : ChatState) =
      { s with
          isProcessing := true
          messages := (s.messages ++ [{ role := Role.user, content := c }]) ++
            [{ role := Role.user, content := c }]
          isGenerating := true
          streamingText := ""
          abortFlag := false
          pendingMessage := none
          inFlight := some
            { apiMessages :=
                systemPromptMessages opts.systemPrompt ++
                  (s.messages ++ [{ role := Role.user, content := c }]) ++
                  [{ role := Role.user, content := c }]
              options := opts.generateOptions
              accText := "" } } := by
    unfold pendingReadyEffect generateResponse
    simp [h2r, h2llm, hcne, hproc]
  rw [heff]
  refine ⟨rfl, rfl, rfl, rfl, rfl, rfl, ?_⟩
  unfold pendingReadyEffect
  simp

/-- Witness for C2: queue "hi" while loading, then the provider becomes
ready. -/
theorem queued_send_runs_exactly_once_on_ready_witness :
    wOpts.queueWhileLoading = true ∧ loadingCtx.isReady = false ∧
    loadingCtx.isLoading = true ∧ jsTrim "hi" ≠ "" ∧
    (initialChatState wOpts).isProcessing = false ∧
    ((sendStep wOpts loadingCtx (some "hi") (initialChatState wOpts)).1 = some "" ∧
     (sendStep wOpts loadingCtx (some "hi") (initialChatState wOpts)).2.messages =
       (initialChatState wOpts).messages ++ [{ role := Role.user, content := "hi" }] ∧
     (sendStep wOpts loadingCtx (some "hi") (initialChatState wOpts)).2.pendingMessage =
       some "hi" ∧
     (pendingReadyEffect wOpts readyCtx
         (sendStep wOpts loadingCtx (some "hi") (initialChatState wOpts)).2).pendingMessage =
       none ∧
     (pendingReadyEffect wOpts readyCtx
         (sendStep wOpts loadingCtx (some "hi") (initialChatState wOpts)).2).isGenerating =
       true ∧
     (pendingReadyEffect wOpts readyCtx
         (sendStep wOpts loadingCtx (some "hi") (initialChatState wOpts)).2).inFlight =
       some
         { apiMessages :=
             systemPromptMessages wOpts.systemPrompt ++
               ((initialChatState wOpts).messages ++ [{ role := Role.user, content := "hi" }]) ++
               [{ role := Role.user, content := "hi" }]
           options := wOpts.generateOptions
           accText := "" } ∧
     pendingReadyEffect wOpts readyCtx
         (pendingReadyEffect wOpts readyCtx
           (sendStep wOpts loadingCtx (some "hi") (initialChatState wOpts)).2) =
       pendingReadyEffect wOpts readyCtx
         (sendStep wOpts loadingCtx (some "hi") (initialChatState wOpts)).2) :=
  ⟨rfl, rfl, rfl, by decide, rfl,
   queued_send_runs_exactly_once_on_ready wOpts loadingCtx readyCtx "hi"
     (initialChatState wOpts) rfl rfl rfl (by decide) rfl rfl rfl⟩

/-- C3: refuted as stated; applies to the failing input. For a generation
started directly by `send` under a ready provider the handed-off list is
system prompt + prior history + the new user message with the user message
appearing once. But for a generation started from a pending (eager)
submission the user message appears twice: `send` appends it to history
while queueing (src/src/react/index.tsx lines 487-490), and the
pending-ready effect then calls `generateResponse` with that history
(lines 459-465), which appends the same user message again and also puts
it at the end of the API list (lines 404-415). Concretely, queueing "hi"
on an empty conversation and letting the provider become ready yields the
history [user "hi", user "hi"] and hands the adapter [user "hi", user
"hi"]: the submitted message occurs twice, not exactly once. -/
theorem pending_submission_duplicates_user_message :
    (pendingReadyEffect wOpts readyCtx wPendingState).messages =
      [{ role := Role.user, content := "hi" }, { role := Role.user, content := "hi" }] ∧
    (pendingReadyEffect wOpts readyCtx wPendingState).inFlight.map Generation.apiMessages =
      some [{ role := Role.user, content := "hi" }, { role := Role.user, content := "hi" }] ∧
    (((pendingReadyEffect wOpts readyCtx wPendingState).inFlight.map
        Generation.apiMessages).getD []).count { role := Role.user, content := "hi" } = 2 := by
  decide

/-- C4: stop mid-stream. With a generation in flight and non-empty
accumulated streamed text, `stop()` appends exactly one new assistant
message whose content is the streamed text followed by "...", resets
`streamingText` to empty and sets `isGenerating` false. Tokens delivered
after the abort flag is set are discarded (they change neither
`streamingText` nor history), and when the underlying stream later
completes, no second assistant message is appended, with or without
further tokens in between. -/
theorem stop_midstream_commits_text_once
    (s : ChatState) (g : Generation) (t : String)
    (hf : s.inFlight = some g) (_hab : s.abortFlag = false)
    (hst : s.streamingText ≠ "") :
    (stopStep s).messages =
      s.messages ++ [{ role := Role.assistant, content := s.streamingText ++ "..." }] ∧
    (stopStep s).streamingText = "" ∧
    (stopStep s).isGenerating = false ∧
    (tokenEvent t (stopStep s)).streamingText = "" ∧
    (tokenEvent t (stopStep s)).messages = (stopStep s).messages ∧
    (completeEvent (stopStep s)).messages = (stopStep s).messages ∧
    (completeEvent (tokenEvent t (stopStep s))).messages = (stopStep s).messages ∧
    (completeEvent (stopStep s)).streamingText = "" := by
  have hstop : stopStep s =
      { s with
          abortFlag := true
          isGenerating := false
          pendingMessage := none
          messages := s.messages ++
            [{ role := Role.assistant, content := s.streamingText ++ "..." }]
          streamingText := "" } := by
    unfold stopStep
    simp [hst]
  rw [hstop]
  refine ⟨rfl, rfl, rfl, ?_, ?_, ?_, ?_, ?_⟩ <;>
    simp [tokenEvent, completeEvent, hf]

/-- Witness for C4: stop after streaming "Hel", then a late token "lo"
and stream completion. -/
theorem stop_midstream_commits_text_once_witness :
    wStreamState.inFlight =
      some { apiMessages := [{ role := Role.user, content := "hi" }],
             options := none, accText := "Hel" } ∧
    wStreamState.abortFlag = false ∧ wStreamState.streamingText ≠ "" ∧
    ((stopStep wStreamState).messages =
      wStreamState.messages ++
        [{ role := Role.assistant, content := wStreamState.streamingText ++ "..." }] ∧
     (stopStep wStreamState).streamingText = "" ∧
     (stopStep wStreamState).isGenerating = false ∧
     (tokenEvent "lo" (stopStep wStreamState)).streamingText = "" ∧
     (tokenEvent "lo" (stopStep wStreamState)).messages = (stopStep wStreamState).messages ∧
     (completeEvent (stopStep wStreamState)).messages = (stopStep wStreamState).messages ∧
     (completeEvent (tokenEvent "lo" (stopStep wStreamState))).messages =
       (stopStep wStreamState).messages ∧
     (completeEvent (stopStep wStreamState)).streamingText = "") :=
  ⟨by decide, by decide, by decide,
   stop_midstream_commits_text_once wStreamState
     { apiMessages := [{ role := Role.user, content := "hi" }],
       options := none, accText := "Hel" }
     "lo" (by decide) (by decide) (by decide)⟩

/-- C5 counterexample: the claim fails for the configured system prompt
S = "". The source guards the prepend with JavaScript truthiness
(`if (systemPrompt)`), so a configured empty-string system prompt is not
prepended: `normalizeMessages("hi", "")` is just the wrapped user message. -/
theorem normalizeMessages_empty_system_prompt_not_prepended :
    normalizeMessages (MessagesInput.str "hi") (some "") =
      [{ role := Role.user, content := "hi" }] ∧
    normalizeMessages (MessagesInput.str "hi") (some "") ≠
      [{ role := Role.system, content := "" }, { role := Role.user, content := "hi" }] := by
  decide

/-- C5 as amended: for every configured non-empty system prompt S,
`normalizeMessages` prepends the system message first for both input
shapes; a string input is wrapped as a single user message
(`normalizeMessages("hi", S) = [system S, user "hi"]`), and an array input
is passed through unchanged after the prepended system message. -/
theorem normalizeMessages_prepends_nonempty_system_prompt
    (sp : String) (hs : sp ≠ "") (s : String) (ms : List ChatMessage) :
    normalizeMessages (MessagesInput.str s) (some sp) =
      [{ role := Role.system, content := sp }, { role := Role.user, content := s }] ∧
    normalizeMessages (MessagesInput.list ms) (some sp) =
      { role := Role.system, content := sp } :: ms := by
  constructor <;> simp [normalizeMessages, systemPromptMessages, hs]

/-- Witness for the amended C5 at S = "S", input "hi" and a one-element
array input. -/
theorem normalizeMessages_prepends_nonempty_system_prompt_witness :
    ("S" : String) ≠ "" ∧
    (normalizeMessages (MessagesInput.str "hi") (some "S") =
      [{ role := Role.system, content := "S" }, { role := Role.user, content := "hi" }] ∧
     normalizeMessages (MessagesInput.list [{ role := Role.user, content := "hi" }])
        (some "S") =
      { role := Role.system, content := "S" } ::
        [{ role := Role.user, content := "hi" }]) :=
  ⟨by decide,
   normalizeMessages_prepends_nonempty_system_prompt "S" (by decide) "hi"
     [{ role := Role.user, content := "hi" }]⟩

/-- C6: when the WebLLM (GPU) backend is explicitly requested but the
capability probe reports WebGPU unavailable, `createLLM` selects the
Transformers adapter (the facade's `backend` getter yields it) and emits
the downgrade warning; the selection is a total function, so no exception
is thrown. -/
theorem webllm_request_without_webgpu_downgrades :
    selectBackend RequestedBackend.webllm false = (UsedBackend.transformers, true) := by
  decide

/-- C7: for both adapter variants, after `unload()` a `chat` call rejects
with the not-loaded error "Model not loaded. Call load() first.",
`modelId` is null and `isReady` is false; and `unload` is idempotent:
unloading twice equals unloading once, and calling it on an
already-unloaded adapter is a no-op that leaves the state unchanged (and
does not fail: both embeddings are total). The hypothesis on the WebLLM
state rules out the unreachable junk state with a model id but no engine
(load sets both fields, unload clears both). -/
theorem unload_clears_state_and_chat_rejects
    (w : WebLLMProviderState) (tr : TransformersProviderState)
    (ms : List ChatMessage) (o : Option GenerateOptions)
    (hw : w.engine = none → w.currentModel = none) :
    webllmChat (webllmUnload w) ms o =
      Except.error "Model not loaded. Call load() first." ∧
    (webllmUnload w).modelId = none ∧
    (webllmUnload w).isReady = false ∧
    webllmUnload (webllmUnload w) = webllmUnload w ∧
    (w.engine = none → webllmUnload w = w) ∧
    transformersChat (transformersUnload tr) ms o =
      Except.error "Model not loaded. Call load() first." ∧
    (transformersUnload tr).modelId = none ∧
    (transformersUnload tr).isReady = false ∧
    transformersUnload (transformersUnload tr) = transformersUnload tr ∧
    (tr.pipeline = none → tr.currentModel = none → transformersUnload tr = tr) := by
  obtain ⟨we, wm⟩ := w
  obtain ⟨tp, tm⟩ := tr
  cases we with
  | none =>
      have hm : wm = none := hw rfl
      subst hm
      refine ⟨rfl, rfl, rfl, rfl, fun _ => rfl, rfl, rfl, rfl, rfl, ?_⟩
      intro hp hm
      subst hp
      subst hm
      rfl
  | some e =>
      refine ⟨rfl, rfl, rfl, rfl, fun h => by simp at h, rfl, rfl, rfl, rfl, ?_⟩
      intro hp hm
      subst hp
      subst hm
      rfl

/-- Witness for C7 at loaded adapter states. -/
theorem unload_clears_state_and_chat_rejects_witness :
    ((⟨some (), some "m"⟩ : WebLLMProviderState).engine = none →
      (⟨some (), some "m"⟩ : WebLLMProviderState).currentModel = none) ∧
    (webllmChat (webllmUnload ⟨some (), some "m"⟩) [] none =
      Except.error "Model not loaded. Call load() first." ∧
     (webllmUnload ⟨some (), some "m"⟩).modelId = none ∧
     (webllmUnload ⟨some (), some "m"⟩).isReady = false ∧
     webllmUnload (webllmUnload ⟨some (), some "m"⟩) = webllmUnload ⟨some (), some "m"⟩ ∧
     ((⟨some (), some "m"⟩ : WebLLMProviderState).engine = none →
        webllmUnload ⟨some (), some "m"⟩ = ⟨some (), some "m"⟩) ∧
     transformersChat (transformersUnload ⟨some (), some "m"⟩) [] none =
      Except.error "Model not loaded. Call load() first." ∧
     (transformersUnload ⟨some (), some "m"⟩).modelId = none ∧
     (transformersUnload ⟨some (), some "m"⟩).isReady = false ∧
     transformersUnload (transformersUnload ⟨some (), some "m"⟩) =
       transformersUnload ⟨some (), some "m"⟩ ∧
     ((⟨some (), some "m"⟩ : TransformersProviderState).pipeline = none →
        (⟨some (), some "m"⟩ : TransformersProviderState).currentModel = none →
        transformersUnload ⟨some (), some "m"⟩ = ⟨some (), some "m"⟩)) :=
  ⟨fun h => Option.noConfusion h,
   unload_clears_state_and_chat_rejects ⟨some (), some "m"⟩ ⟨some (), some "m"⟩
     [] none (fun h => Option.noConfusion h)⟩

/-- C8 counterexample: the claim "the adapter itself applies no default
values" fails at the concrete input of an omitted options argument. Both
adapters default the generation parameters themselves
(`options?.temperature ?? 0.7`, `options?.maxTokens ?? 512`,
`options?.topP ?? 0.95` in webllm.ts lines 124-126 and transformers.ts
lines 259-261): with options omitted, the engine request carries
temperature 0.7, maxTokens 512 and topP 0.95 rather than no values. -/
theorem adapter_applies_defaults_when_options_omitted :
    (buildWebLLMRequest [] none).temperature = 7/10 ∧
    (buildWebLLMRequest [] none).maxTokens = 512 ∧
    (buildWebLLMRequest [] none).topP = 95/100 ∧
    transformersChat ⟨some (), some "m"⟩ [] none =
      Except.ok
        { prompt := formatPrompt [] "m"
          maxNewTokens := 512
          temperature := 7/10
          topP := 95/100
          doSample := true
          returnFullText := false } := by
  refine ⟨?_, rfl, ?_, ?_⟩ <;> norm_num [buildWebLLMRequest, transformersChat]

/-- C8 as amended: the GenerateOptions fields are all optional, and the
defaults are applied by the adapter, not the orchestrator. The orchestrator
hands its configured options through to the adapter unchanged (possibly
absent); the adapter substitutes temperature 0.7, maxTokens 512 and topP
0.95 for missing fields (an omitted options object and an options object
with every field absent produce the same engine request), passes explicitly
given fields through verbatim, and never defaults stopSequences. -/
theorem adapter_defaults_orchestrator_passthrough
    (opts : UseChatOptions) (ctx : LLMContext) (c : String) (s : ChatState)
    (ms : List ChatMessage) (q p : ℚ) (n : Nat) (st : List String)
    (hllm : ctx.hasLLM = true) (hready : ctx.isReady = true)
    (hproc : s.isProcessing = false) (hc : jsTrim c ≠ "") :
    ((sendStep opts ctx (some c) s).2.inFlight).map Generation.options =
      some opts.generateOptions ∧
    buildWebLLMRequest ms none =
      { messages := ms, temperature := 7/10, maxTokens := 512, topP := 95/100,
        stop := none } ∧
    buildWebLLMRequest ms (some ⟨none, none, none, none⟩) =
      buildWebLLMRequest ms none ∧
    buildWebLLMRequest ms (some ⟨some q, some n, some p, some st⟩) =
      { messages := ms, temperature := q, maxTokens := n, topP := p,
        stop := some st } ∧
    transformersChat ⟨some (), some "m"⟩ ms (some ⟨none, none, none, none⟩) =
      transformersChat ⟨some (), some "m"⟩ ms none := by
  refine ⟨?_, rfl, rfl, rfl, rfl⟩
  unfold sendStep generateResponse
  simp [hc, hllm, hready, hproc]

/-- Witness for the amended C8 at concrete inputs. -/
theorem adapter_defaults_orchestrator_passthrough_witness :
    readyCtx.hasLLM = true ∧ readyCtx.isReady = true ∧
    (initialChatState wOpts).isProcessing = false ∧ jsTrim "hi" ≠ "" ∧
    (((sendStep wOpts readyCtx (some "hi") (initialChatState wOpts)).2.inFlight).map
        Generation.options =
      some wOpts.generateOptions ∧
     buildWebLLMRequest [] none =
      { messages := [], temperature := 7/10, maxTokens := 512, topP := 95/100,
        stop := none } ∧
     buildWebLLMRequest [] (some ⟨none, none, none, none⟩) =
      buildWebLLMRequest [] none ∧
     buildWebLLMRequest [] (some ⟨some (1/2), some 64, some (9/10), some ["x"]⟩) =
      { messages := [], temperature := 1/2, maxTokens := 64, topP := 9/10,
        stop := some ["x"] } ∧
     transformersChat ⟨some (), some "m"⟩ [] (some ⟨none, none, none, none⟩) =
      transformersChat ⟨some (), some "m"⟩ [] none) :=
  ⟨rfl, rfl, rfl, by decide,
   adapter_defaults_orchestrator_passthrough wOpts readyCtx "hi"
     (initialChatState wOpts) [] (1/2) (9/10) 64 ["x"] rfl rfl rfl (by decide)⟩

/-- C9: blank send is a no-op. When the effective message content (the
explicit argument, or the controlled input when the argument is absent)
trims to the empty string, `send` returns the empty string at once and the
state is completely unchanged: nothing is appended to history, nothing is
queued, no generation starts, and even the controlled input is kept (the
trim guard runs before the input is cleared). -/
theorem send_blank_content_is_noop
    (opts : UseChatOptions) (ctx : LLMContext) (content : Option String)
    (s : ChatState) (h : jsTrim (content.getD s.input) = "") :
    sendStep opts ctx content s = (some "", s) := by
  unfold sendStep
  simp [h]

/-- Witness for C9: sending whitespace-only content. -/
theorem send_blank_content_is_noop_witness :
    jsTrim ((some "  " : Option String).getD (initialChatState wOpts).input) = "" ∧
    sendStep wOpts readyCtx (some "  ") (initialChatState wOpts) =
      (some "", initialChatState wOpts) :=
  ⟨by decide,
   send_blank_content_is_noop wOpts readyCtx (some "  ") (initialChatState wOpts)
     (by decide)⟩

/-- C10: `stop()` discards a queued pending submission even with no
generation in flight: afterwards the pending slot is empty (`isPending`
false), history is untouched (the user message appended by `send` stays),
`isGenerating` is false, and the pending-ready effect is a no-op under
every later provider context — becoming ready never triggers a generation
for the discarded text, and nothing is in flight afterwards when nothing
was before. -/
theorem stop_discards_pending_submission
    (opts : UseChatOptions) (ctx : LLMContext) (t : String) (s : ChatState)
    (_hp : s.pendingMessage = some t) (hst : s.streamingText = "") :
    (stopStep s).pendingMessage = none ∧
    (stopStep s).messages = s.messages ∧
    (stopStep s).isGenerating = false ∧
    pendingReadyEffect opts ctx (stopStep s) = stopStep s ∧
    (pendingReadyEffect opts ctx (stopStep s)).inFlight = s.inFlight := by
  have hstop : stopStep s =
      { s with abortFlag := true, isGenerating := false, pendingMessage := none } := by
    unfold stopStep
    simp [hst]
  rw [hstop]
  refine ⟨rfl, rfl, rfl, ?_, rfl⟩
  unfold pendingReadyEffect
  simp

/-- Witness for C10: stop while "hi" is queued and the model is loading,
then the provider becomes ready. -/
theorem stop_discards_pending_submission_witness :
    wPendingState.pendingMessage = some "hi" ∧ wPendingState.streamingText = "" ∧
    ((stopStep wPendingState).pendingMessage = none ∧
     (stopStep wPendingState).messages = wPendingState.messages ∧
     (stopStep wPendingState).isGenerating = false ∧
     pendingReadyEffect wOpts readyCtx (stopStep wPendingState) = stopStep wPendingState ∧
     (pendingReadyEffect wOpts readyCtx (stopStep wPendingState)).inFlight =
       wPendingState.inFlight) :=
  ⟨by decide, by decide,
   stop_discards_pending_submission wOpts readyCtx "hi" wPendingState
     (by decide) (by decide)⟩
